import Mathlib

/-!
Verification of the automation-script interpreter in `stats.py` (bookbot repo).

The development embeds the engine shallowly:
- `PValue` models the primitive parameter values (int, float, bool, string);
  Python floats are modelled as rationals.
- `BotAction` / `ActionRecord` model the action dataclass and its
  serialized dict shape (`to_dict` / `from_dict`).
- `RuntimeState` models the fields of `BotRuntime` that the verified
  operations touch; external capability providers (screen capture via
  `pyautogui.screenshot`, the pattern matcher `cv2.matchTemplate` +
  `cv2.minMaxLoc`, the input injector `pyautogui.click/moveTo/press/
  typewrite`, and the sandboxed `eval` of IF_GOTO conditions) are passed
  in as oracle parameters, and injected input events are returned as
  explicit records instead of performed.
- `runner_loop` / `execute_action` model the fetch-execute-jump loop of
  `BotGUI._runner_loop` and the control-flow result (the returned
  `Optional[int]` jump target) of `BotGUI._execute_action`; the loop is
  fuel-indexed since scripts with IF_GOTO may loop forever.
-/

/-- Primitive parameter value: the tagged union of int, float, bool, string
that `BotAction.params` maps names to.  Python floats are modelled as `ℚ`. -/
inductive PValue where
  | int (n : ℤ)
  | float (q : ℚ)
  | bool (b : Bool)
  | str (s : String)
deriving DecidableEq, Repr

/-- Association-list lookup modelling Python `dict.get` (dict keys are
unique, so first match suffices). -/
def dictGet {α : Type} (d : List (String × α)) (k : String) : Option α :=
  match d with
  | [] => none
  | (k2, v) :: rest => if k2 = k then some v else dictGet rest k

/-- Python `int(...)` coercion applied to a `ℚ` (truncation toward zero). -/
def pyInt (q : ℚ) : ℤ :=
  if 0 ≤ q then ⌊q⌋ else ⌈q⌉

/-- Python `int(...)` coercion applied to a `PValue`; `none` models the
`ValueError`/`TypeError` raised on an unparseable string. -/
def pyIntOf : PValue → Option ℤ
  | .int n => some n
  | .float q => some (pyInt q)
  | .bool b => some (if b then 1 else 0)
  | .str s => s.toInt?

/-- The `BotAction` dataclass: a kind tag and a mapping of parameter names
to primitive values (modelled as an association list with unique keys). -/
structure BotAction where
  type : String
  params : List (String × PValue)
deriving DecidableEq, Repr

/-- A serialized action record (a Python dict that may be missing keys):
`type?`/`params?` are `none` when the corresponding key is absent. -/
structure ActionRecord where
  type? : Option String
  params? : Option (List (String × PValue))
deriving DecidableEq, Repr

/-- Embeds `BotAction.to_dict`: returns the dict with both keys present. -/
def BotAction.to_dict (a : BotAction) : ActionRecord :=
  ⟨some a.type, some a.params⟩

/-- Embeds `BotAction.from_dict`: `d["type"]` raises `KeyError` when the
key is absent (modelled as `Except.error` carrying the missing key name);
`d.get("params", \x7b\x7d)` defaults to the empty mapping. -/
def BotAction.from_dict (d : ActionRecord) : Except String BotAction :=
  match d.type? with
  | none => .error "type"
  | some t => .ok ⟨t, d.params?.getD []⟩

/-- A single round trip through `to_dict` then `from_dict` restores the
action. -/
theorem from_dict_to_dict (a : BotAction) :
    BotAction.from_dict a.to_dict = Except.ok a := by
  cases a
  rfl

/-- C8: serializing every action of a script with `to_dict` and
deserializing with `from_dict` yields the original ordered sequence of
actions, kind and params (with their primitive type tags) preserved. -/
theorem script_roundtrip (script : List BotAction) :
    (script.map BotAction.to_dict).map BotAction.from_dict
      = script.map Except.ok := by
  induction script with
  | nil => rfl
  | cons a rest ih =>
    simp only [List.map_cons, ih, from_dict_to_dict]

/-- C10: `from_dict` defaults a missing `params` key to the empty mapping,
but a record with no `type` key is rejected with an error (the `KeyError`)
rather than producing an action. -/
theorem from_dict_missing_fields (p : Option (List (String × PValue)))
    (t : String) :
    BotAction.from_dict ⟨none, p⟩ = Except.error "type"
      ∧ BotAction.from_dict ⟨some t, none⟩ = Except.ok ⟨t, []⟩ := by
  constructor <;> rfl

/-- A pixel of a BGR image buffer (`cv2` stores channels blue, green, red). -/
structure Pixel where
  b : ℤ
  g : ℤ
  r : ℤ
deriving DecidableEq, Repr

/-- An image buffer (`np.ndarray` of shape `(h, w, 3)`): a height, a width,
and the pixel at each `(row, col)` position. -/
structure Image where
  h : ℕ
  w : ℕ
  pix : ℕ → ℕ → Pixel

/-- The dict stored in `BotRuntime.last_match` by a successful
`find_template`: name, top-left corner, template size and score. -/
structure MatchResult where
  name : String
  x : ℤ
  y : ℤ
  w : ℕ
  h : ℕ
  score : ℚ
deriving DecidableEq, Repr

/-- The fields of `BotRuntime` touched by the verified operations:
the variable store, the template registry, the screenshot cache, the last
match result and the stop flag. -/
structure RuntimeState where
  vars : List (String × PValue)
  templates : List (String × Image)
  last_screenshot_bgr : Option Image
  last_match : Option MatchResult
  stop_requested : Bool

/-- The arguments of one `pyautogui.click` call made by the runtime. -/
structure ClickCall where
  x : ℤ
  y : ℤ
  clicks : ℤ
  button : String
  interval : ℚ
deriving DecidableEq, Repr

/-- The arguments of one `pyautogui.moveTo` call made by the runtime. -/
structure MoveCall where
  x : ℤ
  y : ℤ
  duration : ℚ
deriving DecidableEq, Repr

/-- The arguments of one `pyautogui.typewrite` call made by the runtime. -/
structure TypeCall where
  text : String
  interval : ℚ
deriving DecidableEq, Repr

/-- Embeds `BotRuntime.check_pixel`.  `captureO` is the frame the screen
capture provider would return, used only when the cache is empty (the lazy
`take_screenshot`).  The source reads `self.last_screenshot_bgr[yi, xi]`
(row `yi`, column `xi`), names its channels `br, bg, bb`, converts the
target RGB to BGR (`tr, tg, tb = int(b), int(g), int(r)`) and requires all
three absolute channel differences to be at most `tolerance`. -/
def check_pixel (captureO : Image) (st : RuntimeState)
    (x y r g b tolerance : ℤ) : RuntimeState × Bool :=
  let src := st.last_screenshot_bgr.getD captureO
  let st2 := { st with last_screenshot_bgr := some src }
  if x < 0 ∨ y < 0 ∨ (src.w : ℤ) ≤ x ∨ (src.h : ℤ) ≤ y then
    (st2, false)
  else
    let p := src.pix y.toNat x.toNat
    (st2, decide (|p.b - b| ≤ tolerance ∧ |p.g - g| ≤ tolerance
      ∧ |p.r - r| ≤ tolerance))

/-- Embeds `BotRuntime.click_match`: with no last match it returns false
and makes no injection call (`none`); otherwise it clicks at the match's
top-left corner shifted by half the width/height (integer halves, Python
`// 2`) when `center` is set, plus the offset. -/
def click_match (st : RuntimeState) (button : String) (clicks : ℤ)
    (interval : ℚ) (center : Bool) (offset : ℤ × ℤ) :
    Bool × Option ClickCall :=
  match st.last_match with
  | none => (false, none)
  | some m =>
    let x := m.x + (if center then ((m.w / 2 : ℕ) : ℤ) else 0) + offset.1
    let y := m.y + (if center then ((m.h / 2 : ℕ) : ℤ) else 0) + offset.2
    (true, some ⟨x, y, clicks, button, interval⟩)

/-- Embeds `BotRuntime.click_at`: coerces the coordinates with `int(...)`
and forwards `clicks`, `button` and `interval` to `pyautogui.click`
unmodified. -/
def click_at (x y : ℚ) (button : String) (clicks : ℤ) (interval : ℚ) :
    ClickCall :=
  ⟨pyInt x, pyInt y, clicks, button, interval⟩

/-- Embeds `BotRuntime.move_mouse`: coerces the coordinates with
`int(...)` and passes `duration=max(0.0, float(duration))`. -/
def move_mouse (x y : ℚ) (duration : ℚ) : MoveCall :=
  ⟨pyInt x, pyInt y, max 0 duration⟩

/-- Embeds `BotRuntime.press_key`: passes the key straight to
`pyautogui.press`. -/
def press_key (key : String) : String :=
  key

/-- Embeds `BotRuntime.type_text`: passes the text with
`interval=max(0.0, float(interval))`. -/
def type_text (text : String) (interval : ℚ) : TypeCall :=
  ⟨text, max 0 interval⟩

/-- C5: for a coordinate inside the capture's bounds, `check_pixel` returns
true exactly when all three channel differences between the captured pixel
and the target color are at most the tolerance (inclusive); for a
coordinate outside the bounds it returns false. -/
theorem check_pixel_spec (captureO : Image) (st : RuntimeState)
    (x y r g b tolerance : ℤ) :
    ((x < 0 ∨ y < 0 ∨ ((st.last_screenshot_bgr.getD captureO).w : ℤ) ≤ x
        ∨ ((st.last_screenshot_bgr.getD captureO).h : ℤ) ≤ y) →
      (check_pixel captureO st x y r g b tolerance).2 = false)
    ∧ (0 ≤ x → 0 ≤ y → x < ((st.last_screenshot_bgr.getD captureO).w : ℤ) →
        y < ((st.last_screenshot_bgr.getD captureO).h : ℤ) →
      ((check_pixel captureO st x y r g b tolerance).2 = true ↔
        (|((st.last_screenshot_bgr.getD captureO).pix y.toNat x.toNat).b - b|
            ≤ tolerance
          ∧ |((st.last_screenshot_bgr.getD captureO).pix y.toNat x.toNat).g - g|
            ≤ tolerance
          ∧ |((st.last_screenshot_bgr.getD captureO).pix y.toNat x.toNat).r - r|
            ≤ tolerance))) := by
  constructor
  · intro hout
    simp only [check_pixel, if_pos hout]
  · intro hx hy hxw hyh
    have hin : ¬ (x < 0 ∨ y < 0
        ∨ ((st.last_screenshot_bgr.getD captureO).w : ℤ) ≤ x
        ∨ ((st.last_screenshot_bgr.getD captureO).h : ℤ) ≤ y) := by
      push_neg
      exact ⟨hx, hy, hxw, hyh⟩
    simp only [check_pixel, if_neg hin, decide_eq_true_eq]

/-- A concrete 2-by-2 frame used by the witnesses: every pixel has the BGR
value (10, 20, 30). -/
def testFrame : Image :=
  ⟨2, 2, fun _ _ => ⟨10, 20, 30⟩⟩

/-- A runtime state fresh out of `BotRuntime.__init__` except that a
screenshot is already cached. -/
def testState : RuntimeState :=
  ⟨[], [], some testFrame, none, false⟩

/-- Witness for C5: at the in-bounds coordinate (1, 0) of the cached test
frame, a target color whose green channel differs by exactly the tolerance
still matches (inclusive bound), and the coordinate (5, 0) is rejected. -/
theorem check_pixel_spec_witness :
    (check_pixel testFrame testState 1 0 30 25 10 5).2 = true
      ∧ (check_pixel testFrame testState 5 0 30 25 10 5).2 = false := by
  constructor
  · exact ((check_pixel_spec testFrame testState 1 0 30 25 10 5).2
      (by decide) (by decide) (by decide) (by decide)).mpr (by decide)
  · exact (check_pixel_spec testFrame testState 5 0 30 25 10 5).1
      (by decide)

/-- C6: with no match result present, `click_match` fails and performs no
injection call; with a match present it clicks at the match's top-left
corner, shifted by the integer half width/height when centering and by the
offset, and succeeds. -/
theorem click_match_spec (st : RuntimeState) (button : String) (clicks : ℤ)
    (interval : ℚ) (center : Bool) (offset : ℤ × ℤ) :
    (st.last_match = none →
      click_match st button clicks interval center offset = (false, none))
    ∧ (∀ m : MatchResult, st.last_match = some m →
      click_match st button clicks interval center offset =
        (true, some ⟨m.x + (if center then ((m.w / 2 : ℕ) : ℤ) else 0)
            + offset.1,
          m.y + (if center then ((m.h / 2 : ℕ) : ℤ) else 0) + offset.2,
          clicks, button, interval⟩)) := by
  constructor
  · intro hnone
    simp only [click_match, hnone]
  · intro m hm
    simp only [click_match, hm]

/-- A sample successful match result used by the witnesses. -/
def testMatch : MatchResult :=
  ⟨"target1", 100, 40, 9, 5, 9/10⟩

/-- The test state with `testMatch` recorded as the last match. -/
def testStateMatched : RuntimeState :=
  ⟨[], [], some testFrame, some testMatch, false⟩

/-- Witness for C6: no prior match gives (false, no call); with the sample
match and centering, the click lands at (100 + 4 + 1, 40 + 2 + 2). -/
theorem click_match_spec_witness :
    click_match testState "left" 1 (1/20) true (1, 2) = (false, none)
      ∧ click_match testStateMatched "left" 1 (1/20) true (1, 2)
        = (true, some ⟨105, 44, 1, "left", 1/20⟩) := by
  constructor
  · exact (click_match_spec testState "left" 1 (1/20) true (1, 2)).1 rfl
  · have h := (click_match_spec testStateMatched "left" 1 (1/20) true
      (1, 2)).2 testMatch rfl
    simpa [testMatch] using h

/-- Counterexample for C7: `click_at` forwards a negative interval to the
input-injection provider unmodified, so not every interval actually passed
to the provider is clamped to be non-negative. -/
theorem click_at_interval_not_clamped_cex :
    (click_at 10 20 "left" 1 (-1)).interval = -1
      ∧ ¬ (0 : ℚ) ≤ (click_at 10 20 "left" 1 (-1)).interval := by
  constructor
  · rfl
  · rw [show (click_at 10 20 "left" 1 (-1)).interval = -1 from rfl]
    norm_num

/-- C7 amended: `click_at` and `move_mouse` coerce their coordinates with
`int(...)` (truncation toward zero); `move_mouse`'s duration and
`type_text`'s interval are clamped to be non-negative before reaching the
provider; `press_key` passes the key through; but `click_at`'s interval is
forwarded unmodified, not clamped. -/
theorem passthrough_coercion_amended (x y : ℚ) (button : String)
    (clicks : ℤ) (interval duration : ℚ) (key text : String) :
    click_at x y button clicks interval
        = ⟨pyInt x, pyInt y, clicks, button, interval⟩
      ∧ move_mouse x y duration = ⟨pyInt x, pyInt y, max 0 duration⟩
      ∧ 0 ≤ (move_mouse x y duration).duration
      ∧ type_text text interval = ⟨text, max 0 interval⟩
      ∧ 0 ≤ (type_text text interval).interval
      ∧ press_key key = key := by
  refine ⟨rfl, rfl, le_max_left 0 duration, rfl, le_max_left 0 interval, rfl⟩

/-- The `cv2` template-matching method constant `TM_SQDIFF`. -/
def TM_SQDIFF : ℕ := 0

/-- The `cv2` template-matching method constant `TM_SQDIFF_NORMED`. -/
def TM_SQDIFF_NORMED : ℕ := 1

/-- The `cv2` template-matching method constant `TM_CCORR`. -/
def TM_CCORR : ℕ := 2

/-- The `cv2` template-matching method constant `TM_CCORR_NORMED`. -/
def TM_CCORR_NORMED : ℕ := 3

/-- The `cv2` template-matching method constant `TM_CCOEFF`. -/
def TM_CCOEFF : ℕ := 4

/-- The `cv2` template-matching method constant `TM_CCOEFF_NORMED`. -/
def TM_CCOEFF_NORMED : ℕ := 5

/-- The result of `cv2.minMaxLoc(cv2.matchTemplate(src, tmpl, method))`:
the extreme raw scores and their locations. -/
structure MinMaxLoc where
  min_val : ℚ
  max_val : ℚ
  min_loc : ℤ × ℤ
  max_loc : ℤ × ℤ
deriving DecidableEq, Repr

/-- Embeds `BotRuntime.find_template`.  `captureO` is the frame the lazy
screenshot would produce when the cache is empty; `matcherO` is the
pattern matcher (`cv2.matchTemplate` + `cv2.minMaxLoc`).  Mirrors the
source: an unregistered name returns `none` immediately; for the two
square-difference methods the score is `1.0 - min_val` at `min_loc`,
otherwise the raw `max_val` at `max_loc`; the best location is accepted
when `score >= threshold`, storing the match, and otherwise the last
match is set to `none`. -/
def find_template (captureO : Image)
    (matcherO : Image → Image → ℕ → MinMaxLoc) (st : RuntimeState)
    (name : String) (threshold : ℚ) (method : ℕ) :
    RuntimeState × Option MatchResult :=
  let src := st.last_screenshot_bgr.getD captureO
  let st2 := { st with last_screenshot_bgr := some src }
  match dictGet st2.templates name with
  | none => (st2, none)
  | some tmpl =>
    let r := matcherO src tmpl method
    let score := if method = TM_SQDIFF ∨ method = TM_SQDIFF_NORMED then
        1 - r.min_val
      else
        r.max_val
    let loc := if method = TM_SQDIFF ∨ method = TM_SQDIFF_NORMED then
        r.min_loc
      else
        r.max_loc
    if threshold ≤ score then
      let m : MatchResult := ⟨name, loc.1, loc.2, tmpl.w, tmpl.h, score⟩
      ({ st2 with last_match := some m }, some m)
    else
      ({ st2 with last_match := none }, none)

/-- A matcher oracle reporting raw extreme values 0 everywhere. -/
def zeroMatcher : Image → Image → ℕ → MinMaxLoc :=
  fun _ _ _ => ⟨0, 0, (0, 0), (0, 0)⟩

/-- Counterexample for C3: in the state holding `testMatch` as the last
match, looking up the unregistered name "missing" returns absent but does
NOT clear the last match result, which still holds the old value. -/
theorem find_template_unregistered_keeps_match_cex :
    (find_template testFrame zeroMatcher testStateMatched "missing"
        (85/100) TM_CCOEFF_NORMED).2 = none
      ∧ (find_template testFrame zeroMatcher testStateMatched "missing"
          (85/100) TM_CCOEFF_NORMED).1.last_match = some testMatch := by
  constructor <;> rfl

/-- C3 amended: for an unregistered name, `find_template` returns absent
and leaves the last match result unchanged (it does not clear it). -/
theorem find_template_unregistered_amended (captureO : Image)
    (matcherO : Image → Image → ℕ → MinMaxLoc) (st : RuntimeState)
    (name : String) (threshold : ℚ) (method : ℕ)
    (h : dictGet st.templates name = none) :
    (find_template captureO matcherO st name threshold method).2 = none
      ∧ (find_template captureO matcherO st name threshold
          method).1.last_match = st.last_match := by
  constructor <;> simp [find_template, h]

/-- Witness for C3 amended: the empty registry of `testStateMatched` has
no entry for "missing", and the call returns absent while the last match
stays `some testMatch`. -/
theorem find_template_unregistered_amended_witness :
    (find_template testFrame zeroMatcher testStateMatched "anything"
        (1/2) TM_SQDIFF).2 = none
      ∧ (find_template testFrame zeroMatcher testStateMatched "anything"
          (1/2) TM_SQDIFF).1.last_match = testStateMatched.last_match :=
  find_template_unregistered_amended testFrame zeroMatcher testStateMatched
    "anything" (1/2) TM_SQDIFF rfl

/-- The test state with the template "target1" registered and a cached
frame. -/
def testStateWithTemplate : RuntimeState :=
  ⟨[], [("target1", testFrame)], some testFrame, none, false⟩

/-- A matcher oracle modelling a raw (non-normalized) method outcome:
`cv2.matchTemplate` with `TM_CCOEFF` reports unnormalized sums, here a
best raw value of 1000000. -/
def bigMatcher : Image → Image → ℕ → MinMaxLoc :=
  fun _ _ _ => ⟨0, 1000000, (3, 4), (7, 8)⟩

/-- A matcher oracle modelling a normalized square-difference outcome with
best (minimal) normalized distance 3/10 at location (5, 6). -/
def halfMatcher : Image → Image → ℕ → MinMaxLoc :=
  fun _ _ _ => ⟨3/10, 0, (5, 6), (0, 0)⟩

/-- Counterexample for C4: with the registered template "target1" and the
raw method `TM_CCOEFF`, the accepted and stored score is the raw maximum
1000000, which does not lie in [0, 1]. -/
theorem find_template_score_out_of_range_cex :
    ((find_template testFrame bigMatcher testStateWithTemplate "target1"
        (85/100) TM_CCOEFF).2.map MatchResult.score) = some 1000000
      ∧ ¬ ((1000000 : ℚ) ≤ 1) := by
  refine ⟨?_, by norm_num⟩
  simp only [find_template, testStateWithTemplate, bigMatcher, dictGet]
  norm_num [TM_CCOEFF, TM_SQDIFF, TM_SQDIFF_NORMED]

/-- C4 amended: for a registered template the score is `1 - min_val` at
the minimum location for the two square-difference methods (the raw
minimum, normalized or not) and the raw `max_val` at the maximum location
otherwise; the best location is accepted exactly when `threshold ≤ score`;
the stored last match always equals the returned result (stored on
acceptance, cleared on rejection); and the score is guaranteed to lie in
[0, 1] only for `TM_SQDIFF_NORMED` with its raw minimum in [0, 1]. -/
theorem find_template_registered_amended (captureO : Image)
    (matcherO : Image → Image → ℕ → MinMaxLoc) (st : RuntimeState)
    (name : String) (threshold : ℚ) (method : ℕ) (tmpl : Image)
    (r : MinMaxLoc) (score : ℚ) (loc : ℤ × ℤ)
    (hreg : dictGet st.templates name = some tmpl)
    (hr : r = matcherO (st.last_screenshot_bgr.getD captureO) tmpl method)
    (hscore : score = if method = TM_SQDIFF ∨ method = TM_SQDIFF_NORMED
        then 1 - r.min_val else r.max_val)
    (hloc : loc = if method = TM_SQDIFF ∨ method = TM_SQDIFF_NORMED
        then r.min_loc else r.max_loc) :
    ((find_template captureO matcherO st name threshold method).2
        = if threshold ≤ score
          then some ⟨name, loc.1, loc.2, tmpl.w, tmpl.h, score⟩ else none)
      ∧ (find_template captureO matcherO st name threshold
          method).1.last_match
        = (find_template captureO matcherO st name threshold method).2
      ∧ (method = TM_SQDIFF_NORMED → 0 ≤ r.min_val → r.min_val ≤ 1 →
          0 ≤ score ∧ score ≤ 1) := by
  subst hr
  subst hscore
  subst hloc
  refine ⟨?_, ?_, ?_⟩
  · simp only [find_template, hreg]
    split <;> split <;> rfl
  · simp only [find_template, hreg]
    split <;> split <;> rfl
  · intro hm h0 h1
    subst hm
    rw [if_pos (Or.inr rfl)]
    constructor <;> linarith

/-- Witness for C4 amended: with template "target1" registered, the
normalized square-difference method and raw minimum 3/10, the accepted
match is stored with score 7/10, which lies in [0, 1]. -/
theorem find_template_registered_amended_witness :
    (find_template testFrame halfMatcher testStateWithTemplate "target1"
        (1/2) TM_SQDIFF_NORMED).2 = some ⟨"target1", 5, 6, 2, 2, 7/10⟩
      ∧ (0 ≤ (7/10 : ℚ) ∧ (7/10 : ℚ) ≤ 1) := by
  have h := find_template_registered_amended testFrame halfMatcher
    testStateWithTemplate "target1" (1/2) TM_SQDIFF_NORMED testFrame
    ⟨3/10, 0, (5, 6), (0, 0)⟩ (7/10) (5, 6) rfl rfl
    (by norm_num [TM_SQDIFF, TM_SQDIFF_NORMED])
    (by norm_num [TM_SQDIFF, TM_SQDIFF_NORMED])
  refine ⟨?_, h.2.2 rfl (by norm_num) (by norm_num)⟩
  rw [h.1]
  norm_num [testFrame]

/-- Clamps a raw IF_GOTO jump target as `BotGUI._runner_loop` does:
`max(0, min(len(self.actions) - 1, jumped))` (computed over `ℤ`, then the
non-negative result is read back as an index). -/
def clampTarget (len : ℕ) (t : ℤ) : ℕ :=
  (max 0 (min ((len : ℤ) - 1) t)).toNat

/-- The status string set by `BotGUI._runner_loop`: "Running" at entry and
when fuel runs out mid-run, "Stopped" on observing the stop flag, "Done"
on advancing past the end of the script. -/
inductive RunStatus where
  | running
  | stopped
  | done
deriving DecidableEq, Repr

/-- Embeds the control-flow result (the returned `Optional[int]`) of
`BotGUI._execute_action` at program counter `index`: an out-of-range index
returns `None`; only an IF_GOTO action can return a jump target, and it
does so exactly when the `int(...)` coercion of its "index" parameter
(defaulting to 0) succeeds and the sandboxed `eval` of its condition
(outcome supplied by the oracle `evalOutcome`, already false on an
evaluation error) is true.  Every other branch — including a handler
exception, caught at the dispatch boundary — returns `None`.  Handler
side effects on the runtime are not needed by the control-flow claims and
are not modelled here. -/
def execute_action (evalOutcome : Bool) (acts : List BotAction)
    (index : ℕ) : Option ℤ :=
  match acts[index]? with
  | none => none
  | some act =>
    if act.type = "IF_GOTO" then
      match pyIntOf ((dictGet act.params "index").getD (PValue.int 0)) with
      | none => none
      | some target => if evalOutcome then some target else none
    else none

/-- Embeds `BotGUI._runner_loop` as a fuel-indexed step function.  The
loop counter `t` numbers the step boundaries; `stopS t` is the value
`should_stop()` reports at boundary `t`, and `evalS t` the outcome of the
IF_GOTO condition evaluation performed at boundary `t` (both are oracles
for the environment).  Returns the final status, the final program
counter, and the list of program-counter values of the executed actions
in order.  Fuel exhaustion returns `running` (the loop is still going). -/
def runner_loop :
    ℕ → (ℕ → Bool) → (ℕ → Bool) → List BotAction → ℕ → ℕ →
      RunStatus × ℕ × List ℕ
  | 0, _, _, _, i, _ => (.running, i, [])
  | fuel + 1, stopS, evalS, acts, i, t =>
    if i < acts.length then
      if stopS t then (.stopped, i, [])
      else
        match execute_action (evalS t) acts i with
        | some j =>
          let r := runner_loop fuel stopS evalS acts
            (clampTarget acts.length j) (t + 1)
          (r.1, r.2.1, i :: r.2.2)
        | none =>
          let r := runner_loop fuel stopS evalS acts (i + 1) (t + 1)
          (r.1, r.2.1, i :: r.2.2)
    else (.done, i, [])

/-- Unfolding lemma: out of fuel. -/
theorem runner_loop_zero (stopS evalS : ℕ → Bool) (acts : List BotAction)
    (i t : ℕ) :
    runner_loop 0 stopS evalS acts i t = (.running, i, []) :=
  rfl

/-- Unfolding lemma: the program counter has advanced past the end. -/
theorem runner_loop_done (n : ℕ) (stopS evalS : ℕ → Bool)
    (acts : List BotAction) (i t : ℕ) (hi : ¬ i < acts.length) :
    runner_loop (n + 1) stopS evalS acts i t = (.done, i, []) := by
  simp [runner_loop, hi]

/-- Unfolding lemma: the stop flag is observed at the step boundary. -/
theorem runner_loop_stop (n : ℕ) (stopS evalS : ℕ → Bool)
    (acts : List BotAction) (i t : ℕ) (hi : i < acts.length)
    (hs : stopS t = true) :
    runner_loop (n + 1) stopS evalS acts i t = (.stopped, i, []) := by
  simp [runner_loop, hi, hs]

/-- Unfolding lemma: a taken jump clamps the target for the next fetch. -/
theorem runner_loop_jump (n : ℕ) (stopS evalS : ℕ → Bool)
    (acts : List BotAction) (i t : ℕ) (tgt : ℤ) (hi : i < acts.length)
    (hs : stopS t = false)
    (hj : execute_action (evalS t) acts i = some tgt) :
    runner_loop (n + 1) stopS evalS acts i t =
      ((runner_loop n stopS evalS acts (clampTarget acts.length tgt)
          (t + 1)).1,
        (runner_loop n stopS evalS acts (clampTarget acts.length tgt)
          (t + 1)).2.1,
        i :: (runner_loop n stopS evalS acts (clampTarget acts.length tgt)
          (t + 1)).2.2) := by
  simp [runner_loop, hi, hs, hj]

/-- Unfolding lemma: sequential advance by one. -/
theorem runner_loop_seq (n : ℕ) (stopS evalS : ℕ → Bool)
    (acts : List BotAction) (i t : ℕ) (hi : i < acts.length)
    (hs : stopS t = false)
    (hj : execute_action (evalS t) acts i = none) :
    runner_loop (n + 1) stopS evalS acts i t =
      ((runner_loop n stopS evalS acts (i + 1) (t + 1)).1,
        (runner_loop n stopS evalS acts (i + 1) (t + 1)).2.1,
        i :: (runner_loop n stopS evalS acts (i + 1) (t + 1)).2.2) := by
  simp [runner_loop, hi, hs, hj]

/-- The clamped jump target is a valid index whenever the script is
non-empty. -/
theorem clampTarget_lt (len : ℕ) (tgt : ℤ) (hlen : 0 < len) :
    clampTarget len tgt < len := by
  unfold clampTarget
  have h1 : min ((len : ℤ) - 1) tgt ≤ (len : ℤ) - 1 := min_le_left _ _
  omega

/-- C1: a taken IF_GOTO with raw target `tgt` resumes at
`clamp(tgt, 0, len - 1)`, a valid index whenever the script is non-empty
(and a jump can only be taken from a fetched action, so the script is
non-empty); consequently every program-counter value at which the runner
loop fetches and executes an action is strictly below the script length —
no out-of-range action fetch ever occurs during a run. -/
theorem runner_no_out_of_range_fetch (fuel : ℕ) (stopS evalS : ℕ → Bool)
    (acts : List BotAction) (i t : ℕ) :
    (∀ tgt : ℤ, 0 < acts.length →
        clampTarget acts.length tgt < acts.length)
      ∧ ∀ j ∈ (runner_loop fuel stopS evalS acts i t).2.2,
          j < acts.length := by
  refine ⟨fun tgt hlen => clampTarget_lt acts.length tgt hlen, ?_⟩
  induction fuel generalizing i t with
  | zero =>
    rw [runner_loop_zero]
    simp
  | succ n ih =>
    intro j hj
    by_cases hi : i < acts.length
    · cases hs : stopS t with
      | true =>
        rw [runner_loop_stop n stopS evalS acts i t hi hs] at hj
        simp at hj
      | false =>
        cases hj2 : execute_action (evalS t) acts i with
        | some tgt =>
          rw [runner_loop_jump n stopS evalS acts i t tgt hi hs hj2] at hj
          rcases List.mem_cons.mp hj with rfl | hmem
          · exact hi
          · exact ih _ _ _ hmem
        | none =>
          rw [runner_loop_seq n stopS evalS acts i t hi hs hj2] at hj
          rcases List.mem_cons.mp hj with rfl | hmem
          · exact hi
          · exact ih _ _ _ hmem
    · rw [runner_loop_done n stopS evalS acts i t hi] at hj
      simp at hj

/-- A short sample script: one WAIT action then an IF_GOTO back to 7
(deliberately out of range) guarded by a sample condition. -/
def sampleScript : List BotAction :=
  [⟨"WAIT", [("seconds", PValue.float (1/2))]⟩,
   ⟨"IF_GOTO", [("expr", PValue.str "vars.get(\x27flag1\x27) == True"),
     ("index", PValue.int 7)]⟩]

/-- Witness for C1: on `sampleScript` (length 2) the out-of-range raw
target 7 clamps below the length, and each index executed by a 4-step run
with the jump taken once is in range. -/
theorem runner_no_out_of_range_fetch_witness :
    clampTarget 2 7 < 2 ∧ (1 : ℕ) < sampleScript.length := by
  have h := runner_no_out_of_range_fetch 4 (fun _ => false)
    (fun k => decide (k = 1)) sampleScript 0 0
  refine ⟨h.1 7 (by decide), ?_⟩
  refine h.2 1 ?_
  decide

/-- C2: every loop step keeps the program counter at most the script
length, so a run that terminates normally (status "Done", neither stopped
nor still running) exits with the program counter equal to exactly the
script length. -/
theorem runner_done_pc_eq_length (fuel : ℕ) (stopS evalS : ℕ → Bool)
    (acts : List BotAction) (i t : ℕ) (hle : i ≤ acts.length)
    (hdone : (runner_loop fuel stopS evalS acts i t).1 = RunStatus.done) :
    (runner_loop fuel stopS evalS acts i t).2.1 = acts.length := by
  induction fuel generalizing i t with
  | zero =>
    rw [runner_loop_zero] at hdone
    cases hdone
  | succ n ih =>
    by_cases hi : i < acts.length
    · cases hs : stopS t with
      | true =>
        rw [runner_loop_stop n stopS evalS acts i t hi hs] at hdone
        cases hdone
      | false =>
        cases hj : execute_action (evalS t) acts i with
        | some tgt =>
          rw [runner_loop_jump n stopS evalS acts i t tgt hi hs hj]
            at hdone ⊢
          exact ih _ _
            (Nat.le_of_lt (clampTarget_lt acts.length tgt
              (Nat.pos_of_ne_zero (by omega)))) hdone
        | none =>
          rw [runner_loop_seq n stopS evalS acts i t hi hs hj] at hdone ⊢
          exact ih _ _ hi hdone
    · rw [runner_loop_done n stopS evalS acts i t hi]
      show i = acts.length
      omega

/-- Witness for C2: a 4-fuel run of `sampleScript` with the jump never
taken finishes with status done and program counter 2 = length. -/
theorem runner_done_pc_eq_length_witness :
    (runner_loop 4 (fun _ => false) (fun _ => false) sampleScript 0 0).2.1
      = sampleScript.length :=
  runner_done_pc_eq_length 4 (fun _ => false) (fun _ => false)
    sampleScript 0 0 (by decide) (by decide)

/-- C9: in every run, each executed action was dispatched only after the
stop flag was observed false at its step boundary — so once the flag is
observed true no further action is ever executed — and a run that ends in
the stopped status observed the flag true at the boundary immediately
after its last executed action. -/
theorem stop_no_further_execution (fuel : ℕ) (stopS evalS : ℕ → Bool)
    (acts : List BotAction) (i t : ℕ) :
    (∀ p, p < (runner_loop fuel stopS evalS acts i t).2.2.length →
        stopS (t + p) = false)
      ∧ ((runner_loop fuel stopS evalS acts i t).1 = RunStatus.stopped →
        stopS (t + (runner_loop fuel stopS evalS acts i t).2.2.length)
          = true) := by
  induction fuel generalizing i t with
  | zero =>
    rw [runner_loop_zero]
    exact ⟨fun p hp => absurd hp (by simp), fun h => by cases h⟩
  | succ n ih =>
    by_cases hi : i < acts.length
    · cases hs : stopS t with
      | true =>
        rw [runner_loop_stop n stopS evalS acts i t hi hs]
        exact ⟨fun p hp => absurd hp (by simp), fun _ => by simpa using hs⟩
      | false =>
        cases hj : execute_action (evalS t) acts i with
        | some tgt =>
          rw [runner_loop_jump n stopS evalS acts i t tgt hi hs hj]
          constructor
          · intro p hp
            cases p with
            | zero => simpa using hs
            | succ q =>
              have hq := (ih (clampTarget acts.length tgt) (t + 1)).1 q
                (by simp only [List.length_cons] at hp; omega)
              have e : t + 1 + q = t + (q + 1) := by omega
              rw [e] at hq
              exact hq
          · intro hst
            have h2 := (ih (clampTarget acts.length tgt) (t + 1)).2 hst
            simp only [List.length_cons]
            have e : t + ((runner_loop n stopS evalS acts
                (clampTarget acts.length tgt) (t + 1)).2.2.length + 1)
              = t + 1 + (runner_loop n stopS evalS acts
                (clampTarget acts.length tgt) (t + 1)).2.2.length := by
              omega
            rw [e]
            exact h2
        | none =>
          rw [runner_loop_seq n stopS evalS acts i t hi hs hj]
          constructor
          · intro p hp
            cases p with
            | zero => simpa using hs
            | succ q =>
              have hq := (ih (i + 1) (t + 1)).1 q
                (by simp only [List.length_cons] at hp; omega)
              have e : t + 1 + q = t + (q + 1) := by omega
              rw [e] at hq
              exact hq
          · intro hst
            have h2 := (ih (i + 1) (t + 1)).2 hst
            simp only [List.length_cons]
            have e : t + ((runner_loop n stopS evalS acts (i + 1)
                (t + 1)).2.2.length + 1)
              = t + 1 + (runner_loop n stopS evalS acts (i + 1)
                (t + 1)).2.2.length := by
              omega
            rw [e]
            exact h2
    · rw [runner_loop_done n stopS evalS acts i t hi]
      exact ⟨fun p hp => absurd hp (by simp), fun h => by cases h⟩

/-- Witness for C9: with the stop flag raised from boundary 1 on, a run of
`sampleScript` executes only the action at boundary 0 (where the flag was
false), ends stopped, and the flag was observed true at boundary 1. -/
theorem stop_no_further_execution_witness :
    (fun k => decide (0 < k)) (0 + 0) = false
      ∧ (fun k => decide (0 < k))
          (0 + (runner_loop 4 (fun k => decide (0 < k)) (fun _ => false)
            sampleScript 0 0).2.2.length) = true := by
  have h := stop_no_further_execution 4 (fun k => decide (0 < k))
    (fun _ => false) sampleScript 0 0
  exact ⟨h.1 0 (by decide), h.2 (by decide)⟩
